import Mathlib

/-!
Shallow embedding of the wakatiwai-udive driver framework (springboard crate):
disk reader, driver IO channel, driver discovery/validation, driver lifecycle
and the driver-side entry preludes, together with proofs about them.
-/

set_option autoImplicit false

namespace Springboard

/-! Section: UEFI status codes

Modelled from the uefi crate interface: a `Status` is a 64-bit value whose
bit 63 marks errors; `SUCCESS` is 0, `is_success` tests equality with 0 and
`is_error` tests bit 63.  `NOT_FOUND` is error code 14 with the error bit set.
-/

abbrev Status := Nat

def Status.SUCCESS : Status := 0

def Status.NOT_FOUND : Status := 2 ^ 63 + 14

def Status.DEVICE_ERROR : Status := 2 ^ 63 + 7

def Status.isSuccess (s : Status) : Bool := s == 0

def Status.isError (s : Status) : Bool := Nat.testBit s 63

/-! Section: Driver records and discovery (src/wakatiwai/mod.rs)

A directory entry is known through its `FileInfo`: whether it is a regular
file, and its file name.
-/

structure FileInfo where
  isRegularFile : Bool
  fileName : String
deriving DecidableEq, Repr

inductive DriverType where
  | BOOT
  | FS
deriving DecidableEq, Repr

structure Driver where
  name : String
  driver_type : Option DriverType
  exec_handle : Option Nat
deriving DecidableEq, Repr

structure BootDriver where
  toDriver : Driver
deriving DecidableEq, Repr

structure FSDriver where
  toDriver : Driver
deriving DecidableEq, Repr

/-- Validates a driver from its EFI file, embedding `is_valid_driver` from
src/wakatiwai/mod.rs lines 65-79.  The source checks that the handle points
to a regular file and that the name ends in `.efi`, and then its final
statement is the literal `false`, which is what every control path that survives
both checks returns. -/
def is_valid_driver (driver_info : FileInfo) : Bool :=
  if !driver_info.isRegularFile then
    false
  else if !(driver_info.fileName.endsWith (".efi")) then
    false
  else
    false

/-- A single event observed while enumerating a driver directory, embedding
one iteration of the loop in `get_driver_files_from_dir`: either
`read_entry_boxed` yields an entry (whose subsequent `directory.open` either
succeeds, giving a handle carrying the same `FileInfo`, or fails with a
status), or `read_entry_boxed` itself fails (`Err(_)`). -/
inductive DirEvent where
  | entryOk : FileInfo → Option Status → DirEvent
  | entryErr : DirEvent
deriving DecidableEq, Repr

/-- The enumeration loop of `get_driver_files_from_dir`
(src/wakatiwai/mod.rs lines 92-132), with the accumulated driver list made
explicit.  An `entryErr` event hits the `Err(_) => break` arm of the source, an
open failure returns that status, an entry rejected by `is_valid_driver` is
skipped, and an accepted entry is pushed as a `Driver` with unset type and
handle. -/
def driver_files_loop : List DirEvent → List Driver → Except Status (List Driver)
  | [], acc => Except.ok acc
  | DirEvent.entryErr :: _, acc => Except.ok acc
  | DirEvent.entryOk info openRes :: rest, acc =>
    match openRes with
    | some e => Except.error e
    | none =>
      if !is_valid_driver info then
        driver_files_loop rest acc
      else
        driver_files_loop rest (acc ++ [{ name := info.fileName, driver_type := none, exec_handle := none }])

/-- Embeds `get_driver_files_from_dir` (src/wakatiwai/mod.rs lines 89-135):
run the enumeration loop starting from the empty driver vector. -/
def get_driver_files_from_dir (events : List DirEvent) : Except Status (List Driver) :=
  driver_files_loop events []

/-! Section: Boot driver invocation (src/boot/mod.rs) -/

/-- The Rust check `invoke_status.is_ok_and(|t| t.is_success())`. -/
def isOkAndSuccess (r : Except Status Status) : Bool :=
  match r with
  | Except.ok t => t.isSuccess
  | Except.error _ => false

/-- Embeds `BootDriver::invoke` (src/boot/mod.rs lines 57-70) as a function of
the result of the underlying `Driver::invoke` primitive: if the primitive
returned `Ok` with a success status the invoker observes `None`, otherwise it
observes `Some` of the result of the primitive.  The Rust type `Result<Status, Status>` is
rendered as `Except Status Status` with `Except.ok`/`Except.error` for
`Ok`/`Err`. -/
def BootDriver.invoke (invoke_status : Except Status Status) :
    Option (Except Status Status) :=
  if isOkAndSuccess invoke_status then
    none
  else
    some invoke_status

/-! Section: Disk reader (src/disk.rs)

The underlying `DiskIo.read_disk` primitive is out of scope for the source
(a uefi protocol) and is modelled at its interface: a disk has byte content
`data`, a byte `size`, and an oracle `readFail` deciding whether a given
`(media_id, offset, count)` read fails and with which status.  On success the
primitive fills the `count`-byte buffer of the caller with the bytes at absolute
positions `offset, offset+1, ...`.
-/

structure DiskMedia where
  media_id : Nat
  block_size : Nat
  logical_blocks_per_physical_block : Nat
  last_block : Nat
deriving DecidableEq, Repr

structure DiskReader where
  abs_offset : Nat
  media_id : Nat
  sector_size : Nat
  block_size : Nat
  last_block : Nat
deriving DecidableEq, Repr

structure Disk where
  data : Nat → Nat
  size : Nat
  readFail : Nat → Nat → Nat → Option Status

/-- The raw disk read primitive, modelled at its interface (see above). -/
def read_disk (d : Disk) (media_id offset count : Nat) :
    Except Status (List Nat) :=
  match d.readFail media_id offset count with
  | some e => Except.error e
  | none => Except.ok ((List.range count).map fun i => d.data (offset + i))

/-- Embeds `DiskReader::new` (src/disk.rs lines 44-78): the media id, block
size and last block are taken from the media; `sector_size` is `block_size`
when `logical_blocks_per_physical_block` is 0 and
`block_size / logical_blocks_per_physical_block` (integer division) otherwise. -/
def DiskReader.new (abs_offset : Nat) (media : DiskMedia) : DiskReader :=
  { abs_offset := abs_offset
    media_id := media.media_id
    sector_size :=
      if media.logical_blocks_per_physical_block == 0 then
        media.block_size
      else
        media.block_size / media.logical_blocks_per_physical_block
    block_size := media.block_size
    last_block := media.last_block }

/-- Embeds `DiskReader::read_bytes` (src/disk.rs lines 91-103): issue the
underlying read at `abs_offset + offset` for `count` bytes and surface a
failure status unchanged. -/
def DiskReader.read_bytes (r : DiskReader) (d : Disk) (offset count : Nat) :
    Except Status (List Nat) :=
  match read_disk d r.media_id (r.abs_offset + offset) count with
  | Except.error e => Except.error e
  | Except.ok buffer => Except.ok buffer

/-- Embeds `DiskReader::read_sector` (src/disk.rs lines 115-117). -/
def DiskReader.read_sector (r : DiskReader) (d : Disk) (sector : Nat) :
    Except Status (List Nat) :=
  r.read_bytes d (sector * r.sector_size) r.sector_size

/-- Embeds `DiskReader::read_sectors` (src/disk.rs lines 130-132). -/
def DiskReader.read_sectors (r : DiskReader) (d : Disk) (sector count : Nat) :
    Except Status (List Nat) :=
  r.read_bytes d (sector * r.sector_size) (count * r.sector_size)

/-- Embeds `DiskReader::read_block` (src/disk.rs lines 144-146). -/
def DiskReader.read_block (r : DiskReader) (d : Disk) (lba : Nat) :
    Except Status (List Nat) :=
  r.read_bytes d (lba * r.block_size) r.block_size

/-- Embeds `DiskReader::read_blocks` (src/disk.rs lines 159-161). -/
def DiskReader.read_blocks (r : DiskReader) (d : Disk) (lba count : Nat) :
    Except Status (List Nat) :=
  r.read_bytes d (lba * r.block_size) (count * r.block_size)

/-! Section: Driver IO channel location (src/driver.rs, src/io.rs)

The global `DRIVER_IO` pointer (an `Option` of a raw channel address, declared
in the crate root) is threaded through as explicit state of type
`Option Nat`.
-/

structure MemoryDescriptor where
  ty : Nat
  phys_start : Nat
deriving DecidableEq, Repr

/-- Modelled from the spec: the reserved memory-type tag for boot-driver IO
channels (`BOOT_DRIVER_IO_MEMTYPE`, defined in the crate root, which is not
under src/).  The spec fixes only that it is a reserved constant distinct
from the file-system tag; the concrete value is arbitrary here. -/
def BOOT_DRIVER_IO_MEMTYPE : Nat := 2147483648

/-- Modelled from the spec: the reserved memory-type tag for file-system
driver IO channels (`FSYS_DRIVER_IO_MEMTYPE`, defined in the crate root,
which is not under src/), distinct from the boot tag. -/
def FSYS_DRIVER_IO_MEMTYPE : Nat := 2147483649

/-- Embeds `find_io_memory` (src/driver.rs lines 22-33): scan the memory map
in order; at the first entry whose type equals `memtype`, set the global
channel pointer to its physical start and return `SUCCESS`; if no entry
matches, return `NOT_FOUND` with the state untouched. -/
def find_io_memory (memtype : Nat) :
    List MemoryDescriptor → Option Nat → Status × Option Nat
  | [], st => (Status.NOT_FOUND, st)
  | mement :: rest, st =>
    if mement.ty == memtype then
      (Status.SUCCESS, some mement.phys_start)
    else
      find_io_memory memtype rest st

/-- Embeds the `boot_prelude!` entry body (src/boot/mod.rs lines 92-111) after
environment initialization: locate the boot channel; if location reports an
error, return that status without reaching the `main` logic of the driver; otherwise run
`main` (modelled by its result: `none` maps to `SUCCESS`, `some s` is returned
verbatim).  The boolean component records whether `main` was called. -/
def boot_prelude (memmap : List MemoryDescriptor) (st : Option Nat)
    (main_result : Option Status) : Status × Bool :=
  let fr := find_io_memory BOOT_DRIVER_IO_MEMTYPE memmap st
  if (fr.1).isError then
    (fr.1, false)
  else
    match main_result with
    | none => (Status.SUCCESS, true)
    | some s => (s, true)

/-! Section: Byte memory, the FS output region and FS invocation (src/fs/mod.rs)

Raw memory shared between the invoker and the driver image is modelled as a
byte map `Nat → Nat`.  `usize` values are stored as 8 little-endian bytes, as
on the x86-64 UEFI targets the crate compiles for.
-/

def USIZE_BYTES : Nat := 8

/-- Read a k-byte little-endian value from memory at address p. -/
def readLE : Nat → (Nat → Nat) → Nat → Nat
  | 0, _, _ => 0
  | k + 1, mem, p => mem p + 256 * readLE k mem (p + 1)

/-- Write the k-byte little-endian encoding of n into memory at address p,
modelling the store `*(vecptr as *mut usize) = filevec.len()` with k = 8. -/
def storeLE (k : Nat) (mem : Nat → Nat) (p n : Nat) : Nat → Nat :=
  fun a => if p ≤ a ∧ a < p + k then n / 256 ^ (a - p) % 256 else mem a

/-- Copy a byte list into memory starting at address p, modelling
`core::ptr::copy(filevec.as_ptr(), dst, filevec.len())`. -/
def storeBytes (mem : Nat → Nat) (p : Nat) (bs : List Nat) : Nat → Nat :=
  fun a => if h : p ≤ a ∧ a < p + bs.length then bs.get ⟨a - p, by omega⟩ else mem a

/-- The DriverIO wire structure (src/io.rs lines 8-13), with the two raw
pointers rendered as addresses. -/
structure DriverIOBlock where
  inptr : Nat
  outptr : Nat
deriving DecidableEq, Repr

/-- Embeds the serialization in the success branch of the `fs_prelude!` entry
body (src/fs/mod.rs lines 106-115), given that the page allocation returned
address `vecptr`: write the byte length of `filevec` into the usize field at
`vecptr`, then copy the bytes immediately after that field. -/
def fs_prelude_store (mem : Nat → Nat) (vecptr : Nat) (filevec : List Nat) :
    Nat → Nat :=
  storeBytes (storeLE USIZE_BYTES mem vecptr filevec.length) (vecptr + USIZE_BYTES) filevec

/-- The full effect of the `fs_prelude!` success branch: the updated memory,
the channel with `outptr` set to the address of the fresh region, and the SUCCESS
status the entry returns. -/
def fs_prelude_success (mem : Nat → Nat) (vecptr : Nat) (filevec : List Nat)
    (dio : DriverIOBlock) : (Nat → Nat) × DriverIOBlock × Status :=
  (fs_prelude_store mem vecptr filevec,
   { inptr := dio.inptr, outptr := vecptr },
   Status.SUCCESS)

/-- The slice reconstruction in `FSDriver::invoke` (src/fs/mod.rs lines 54-61):
`from_raw_parts(outptr.add(size_of::<usize>()), *(outptr as *mut usize))`,
that is, the length is the usize read at `outptr` and the bytes follow it. -/
def read_out_region (mem : Nat → Nat) (outptr : Nat) : List Nat :=
  (List.range (readLE USIZE_BYTES mem outptr)).map fun i =>
    mem (outptr + USIZE_BYTES + i)

/-- Embeds `FSDriver::invoke` (src/fs/mod.rs lines 45-65) as a function of the
underlying `Driver::invoke` result and of the shared memory and `outptr` the
driver left behind: on `Ok` with a success status the invoker returns the
output-region slice, otherwise it wraps the result of the primitive in `Err`. -/
def FSDriver.invoke (invoke_status : Except Status Status) (mem : Nat → Nat)
    (outptr : Nat) : Except (Except Status Status) (List Nat) :=
  if isOkAndSuccess invoke_status then
    Except.ok (read_out_region mem outptr)
  else
    Except.error invoke_status

/-! Section: Driver discovery with the failure modes of the environment (src/wakatiwai/mod.rs)

The uefi volume operations are modelled by their outcomes.  `Exec` adds a
`panicked` outcome to success and error, because `get_boot_driver_dir`
(src/wakatiwai/mod.rs line 37) calls `.unwrap()` on the result of
`get_driver_dir`, which panics when that result is an `Err`.
-/

inductive Exec (α : Type) where
  | panicked : Exec α
  | failed : Status → Exec α
  | ok : α → Exec α
deriving DecidableEq, Repr

/-- The outcomes a driver volume presents to discovery: the result of opening
the top-level driver directory (`get_driver_dir`, the chain of
`get_image_file_system`, `open_volume` and `open(DRIVER_DIRECTORY)`), the
results of opening the two fixed subdirectories, and the enumeration events
of each subdirectory. -/
structure DriverVolume where
  driver_dir : Except Status Unit
  boot_subdir : Except Status Unit
  fs_subdir : Except Status Unit
  boot_events : List DirEvent
  fs_events : List DirEvent

/-- Embeds `get_boot_driver_dir` (src/wakatiwai/mod.rs lines 36-42): the
source calls `get_driver_dir().unwrap()`, so a failure to open the top-level
driver directory panics instead of propagating. -/
def get_boot_driver_dir (env : DriverVolume) : Exec Unit :=
  match env.driver_dir with
  | Except.error _ => Exec.panicked
  | Except.ok _ =>
    match env.boot_subdir with
    | Except.error e => Exec.failed e
    | Except.ok _ => Exec.ok ()

/-- Embeds `get_fs_driver_dir` (src/wakatiwai/mod.rs lines 52-58): here the
source uses `get_driver_dir()?`, so the same failure propagates as an error. -/
def get_fs_driver_dir (env : DriverVolume) : Exec Unit :=
  match env.driver_dir with
  | Except.error e => Exec.failed e
  | Except.ok _ =>
    match env.fs_subdir with
    | Except.error e => Exec.failed e
    | Except.ok _ => Exec.ok ()

/-- Embeds `get_boot_drivers` (src/wakatiwai/mod.rs lines 141-163). -/
def get_boot_drivers (env : DriverVolume) : Exec (List BootDriver) :=
  match get_boot_driver_dir env with
  | Exec.panicked => Exec.panicked
  | Exec.failed e => Exec.failed e
  | Exec.ok _ =>
    match get_driver_files_from_dir env.boot_events with
    | Except.error s => Exec.failed s
    | Except.ok ds =>
      Exec.ok (ds.map fun d =>
        BootDriver.mk { name := d.name, driver_type := some DriverType.BOOT,
                        exec_handle := d.exec_handle })

/-- Embeds `get_fs_drivers` (src/wakatiwai/mod.rs lines 169-191). -/
def get_fs_drivers (env : DriverVolume) : Exec (List FSDriver) :=
  match get_fs_driver_dir env with
  | Exec.panicked => Exec.panicked
  | Exec.failed e => Exec.failed e
  | Exec.ok _ =>
    match get_driver_files_from_dir env.fs_events with
    | Except.error s => Exec.failed s
    | Except.ok ds =>
      Exec.ok (ds.map fun d =>
        FSDriver.mk { name := d.name, driver_type := some DriverType.FS,
                      exec_handle := d.exec_handle })

/-- Embeds `get_boot_driver` (src/wakatiwai/mod.rs lines 202-215): list all
boot drivers, propagate a listing failure, and return the first driver whose
name equals the requested name exactly. -/
def get_boot_driver (env : DriverVolume) (driver_name : String) :
    Exec (Option BootDriver) :=
  match get_boot_drivers env with
  | Exec.panicked => Exec.panicked
  | Exec.failed e => Exec.failed e
  | Exec.ok ds => Exec.ok (ds.find? fun bd => bd.toDriver.name == driver_name)

/-- Embeds `get_fs_driver` (src/wakatiwai/mod.rs lines 226-239). -/
def get_fs_driver (env : DriverVolume) (driver_name : String) :
    Exec (Option FSDriver) :=
  match get_fs_drivers env with
  | Exec.panicked => Exec.panicked
  | Exec.failed e => Exec.failed e
  | Exec.ok ds => Exec.ok (ds.find? fun fd => fd.toDriver.name == driver_name)

/-! Section: Little-endian store/load lemmas -/

/-- Reading k bytes only depends on the memory cells in the window read. -/
theorem readLE_congr (k : Nat) (m1 m2 : Nat → Nat) (p : Nat)
    (h : ∀ a, p ≤ a → a < p + k → m1 a = m2 a) :
    readLE k m1 p = readLE k m2 p := by
  induction k generalizing p with
  | zero => rfl
  | succ k ih =>
    simp only [readLE]
    rw [h p (Nat.le_refl p) (by omega),
        ih (p + 1) fun a ha1 ha2 => h a (by omega) (by omega)]

/-- Recombining the low byte of n with the next k little-endian digits of
n / 256 yields n reduced modulo 256 ^ (k+1). -/
theorem store_read_mod (n k : Nat) :
    n % 256 + 256 * (n / 256 % 256 ^ k) = n % 256 ^ (k + 1) := by
  have hM : 0 < 256 ^ k := pow_pos (by norm_num) k
  have hxlt : n / 256 % 256 ^ k < 256 ^ k := Nat.mod_lt _ hM
  have hsum : 256 * (n / 256 % 256 ^ k) + n % 256 < 256 * 256 ^ k := by
    have h2 : 256 * (n / 256 % 256 ^ k + 1) ≤ 256 * 256 ^ k :=
      Nat.mul_le_mul_left 256 hxlt
    omega
  have hrM : n % 256 < 256 * 256 ^ k := by
    have h3 : 256 * 1 ≤ 256 * 256 ^ k := Nat.mul_le_mul_left 256 hM
    omega
  conv_rhs => rw [← Nat.div_add_mod n 256]
  rw [pow_succ', Nat.add_mod, Nat.mul_mod_mul_left, Nat.mod_eq_of_lt hrM,
      Nat.mod_eq_of_lt hsum]
  omega

/-- Round trip: reading back a k-byte little-endian store recovers the stored
value modulo 256 ^ k. -/
theorem readLE_storeLE (k : Nat) (mem : Nat → Nat) (p n : Nat) :
    readLE k (storeLE k mem p n) p = n % 256 ^ k := by
  induction k generalizing mem p n with
  | zero => simp [readLE, Nat.mod_one]
  | succ k ih =>
    have h1 : storeLE (k + 1) mem p n p = n % 256 := by
      simp [storeLE]
    have h2 : readLE k (storeLE (k + 1) mem p n) (p + 1) =
        readLE k (storeLE k mem (p + 1) (n / 256)) (p + 1) := by
      apply readLE_congr
      intro a ha1 ha2
      simp only [storeLE]
      rw [if_pos (by omega), if_pos (by omega)]
      have hap : a - p = (a - (p + 1)) + 1 := by omega
      rw [hap, pow_succ', ← Nat.div_div_eq_div_mul]
    simp only [readLE]
    rw [h1, h2, ih]
    exact store_read_mod n k

/-- A byte copied by storeBytes is read back unchanged. -/
theorem storeBytes_at (mem : Nat → Nat) (p : Nat) (bs : List Nat) (i : Nat)
    (hi : i < bs.length) : storeBytes mem p bs (p + i) = bs.get ⟨i, hi⟩ := by
  have hpi : p + i - p = i := by omega
  simp only [storeBytes]
  rw [dif_pos (by omega)]
  exact congrArg bs.get (Fin.ext hpi)

/-- storeBytes leaves every address below its window untouched. -/
theorem storeBytes_below (mem : Nat → Nat) (p : Nat) (bs : List Nat) (a : Nat)
    (ha : a < p) : storeBytes mem p bs a = mem a := by
  simp only [storeBytes]
  rw [dif_neg (by omega)]

/-! Section: Theorems -/

/-- C1: the claim says `is_valid_driver` returns true for a regular file named
with a `.efi` suffix.  The code instead ends in a hardcoded `false`, so even a
regular file named `a.efi` is rejected — evaluating the embedded source at that
failing input yields `false`. -/
theorem is_valid_driver_rejects_regular_efi_file :
    is_valid_driver { isRegularFile := true, fileName := "a.efi" } = false := by
  simp [is_valid_driver]

/-- C2: `BootDriver::invoke` distinguishes the three outcomes: `none` exactly
when the underlying invocation primitive returned `Ok` with a success status;
`some (Except.ok s)` when the image ran but reported failure status `s`; and
`some (Except.error s)` when the image could not be started or dispatched. -/
theorem bootdriver_invoke_three_way (r : Except Status Status) :
    (BootDriver.invoke r = none ↔ ∃ s, r = Except.ok s ∧ s.isSuccess = true) ∧
    (∀ s, r = Except.ok s → s.isSuccess = false →
      BootDriver.invoke r = some (Except.ok s)) ∧
    (∀ s, r = Except.error s → BootDriver.invoke r = some (Except.error s)) := by
  refine ⟨?_, ?_, ?_⟩
  · constructor
    · intro h
      cases r with
      | ok s =>
        refine ⟨s, rfl, ?_⟩
        by_cases hs : s.isSuccess = true
        · exact hs
        · simp [BootDriver.invoke, isOkAndSuccess, hs] at h
      | error s =>
        simp [BootDriver.invoke, isOkAndSuccess] at h
    · rintro ⟨s, rfl, hs⟩
      simp [BootDriver.invoke, isOkAndSuccess, hs]
  · rintro s rfl hs
    simp [BootDriver.invoke, isOkAndSuccess, hs]
  · rintro s rfl
    simp [BootDriver.invoke, isOkAndSuccess]

/-- Witness for C2 at a concrete failed-execution input: the primitive
returned `Ok 5` (a non-success status), and the invoker observes
`some (Except.ok 5)`. -/
theorem bootdriver_invoke_three_way_witness :
    BootDriver.invoke (Except.ok 5) = some (Except.ok 5) :=
  (bootdriver_invoke_three_way (Except.ok 5)).2.1 5 rfl (by decide)

/-- C7 counterexample: with a directory listing whose first enumeration step
fails (`read_entry_boxed` returns `Err`), `get_driver_files_from_dir` returns
the successful empty driver list, not an error status — contradicting the
claim that an enumeration failure is surfaced to the caller as an error. -/
theorem get_driver_files_enumeration_failure_is_ok :
    get_driver_files_from_dir [DirEvent.entryErr] = Except.ok [] := by
  rfl

/-- C7 amended: an enumeration failure terminates the listing at that point —
the result is exactly the (successful, possibly partial) result of listing the
entries read before the failure, never an error status caused by the
enumeration failure itself. -/
theorem get_driver_files_enumeration_failure_truncates
    (good rest : List DirEvent) :
    get_driver_files_from_dir (good ++ DirEvent.entryErr :: rest) =
      get_driver_files_from_dir good := by
  show driver_files_loop (good ++ DirEvent.entryErr :: rest) [] = driver_files_loop good []
  generalize [] = acc
  induction good generalizing acc with
  | nil => rfl
  | cons ev good ih =>
    cases ev with
    | entryErr => rfl
    | entryOk info openRes =>
      cases openRes with
      | some e => rfl
      | none =>
        simp only [List.cons_append, driver_files_loop]
        by_cases h : is_valid_driver info
        · rw [h]
          exact ih _
        · rw [Bool.not_eq_true] at h
          rw [h]
          exact ih _

/-- C8: for every in-bounds (offset, count) pair, `read_bytes` issues the read
at absolute position `abs_offset + offset` and, on success, returns exactly
`count` bytes whose i-th element is the disk byte at
`abs_offset + offset + i`; and `read_sector s` is extensionally equal to
`read_bytes (s * sector_size) sector_size`. -/
theorem diskreader_read_bytes_spec (r : DiskReader) (d : Disk)
    (offset count : Nat) (hbounds : r.abs_offset + offset + count ≤ d.size) :
    (∀ buffer, r.read_bytes d offset count = Except.ok buffer →
      buffer.length = count ∧
      ∀ i, (hi : i < buffer.length) →
        buffer[i] = d.data (r.abs_offset + offset + i)) ∧
    (∀ s, r.read_sector d s = r.read_bytes d (s * r.sector_size) r.sector_size) := by
  constructor
  · intro buffer hok
    unfold DiskReader.read_bytes read_disk at hok
    cases hfail : d.readFail r.media_id (r.abs_offset + offset) count with
    | some e => rw [hfail] at hok; exact absurd hok (by simp)
    | none =>
      rw [hfail] at hok
      simp only [Except.ok.injEq] at hok
      subst hok
      constructor
      · simp
      · intro i hi
        simp
  · intro s
    rfl

/-- Witness for C8: a concrete 2-byte in-bounds read on a disk whose byte at
position p is p; the read starts at absolute position 10 + 3 = 13. -/
theorem diskreader_read_bytes_spec_witness :
    (∀ buffer,
      DiskReader.read_bytes ⟨10, 0, 2, 4, 7⟩ ⟨fun p => p, 100, fun _ _ _ => none⟩ 3 2 = Except.ok buffer →
      buffer.length = 2 ∧
      ∀ i, (hi : i < buffer.length) → buffer[i] = (10 + 3 + i : Nat)) ∧
    DiskReader.read_sector ⟨10, 0, 2, 4, 7⟩ ⟨fun p => p, 100, fun _ _ _ => none⟩ 5 =
      DiskReader.read_bytes ⟨10, 0, 2, 4, 7⟩ ⟨fun p => p, 100, fun _ _ _ => none⟩ (5 * 2) 2 :=
  ⟨fun buffer hok =>
    (diskreader_read_bytes_spec ⟨10, 0, 2, 4, 7⟩ ⟨fun p => p, 100, fun _ _ _ => none⟩ 3 2
      (by decide)).1 buffer hok,
   (diskreader_read_bytes_spec ⟨10, 0, 2, 4, 7⟩ ⟨fun p => p, 100, fun _ _ _ => none⟩ 3 2
      (by decide)).2 5⟩

/-- C9 counterexample: the claim asserts `sector_size * ratio == block_size`
whenever the ratio is positive, but `sector_size` is computed with truncating
integer division: for block size 10 and ratio 3 the constructed reader has
`sector_size = 3` and `3 * 3 = 9 ≠ 10`. -/
theorem diskreader_sector_size_mul_counterexample :
    ¬ ((DiskReader.new 0 ⟨0, 10, 3, 0⟩).sector_size * 3 =
        (DiskReader.new 0 ⟨0, 10, 3, 0⟩).block_size) := by
  decide

/-- C9 amended: if the logical-blocks-per-physical-block ratio is 0 then
`sector_size` equals `block_size`, otherwise `sector_size` equals
`block_size / ratio` with truncating integer division; and whenever the ratio
is positive and divides `block_size` evenly, `sector_size * ratio`
equals `block_size`. -/
theorem diskreader_sector_size_spec (abs_offset : Nat) (media : DiskMedia) :
    (media.logical_blocks_per_physical_block = 0 →
      (DiskReader.new abs_offset media).sector_size = media.block_size) ∧
    (media.logical_blocks_per_physical_block ≠ 0 →
      (DiskReader.new abs_offset media).sector_size =
        media.block_size / media.logical_blocks_per_physical_block) ∧
    (0 < media.logical_blocks_per_physical_block →
      media.logical_blocks_per_physical_block ∣ media.block_size →
      (DiskReader.new abs_offset media).sector_size *
        media.logical_blocks_per_physical_block = media.block_size) := by
  refine ⟨?_, ?_, ?_⟩
  · intro h
    simp [DiskReader.new, h]
  · intro h
    simp [DiskReader.new, h]
  · intro hpos hdvd
    have hne : media.logical_blocks_per_physical_block ≠ 0 := Nat.pos_iff_ne_zero.mp hpos
    simp only [DiskReader.new, beq_iff_eq, hne, if_false]
    exact Nat.div_mul_cancel hdvd

/-- Witness for C9 amended at block size 512 and ratio 4: the constructed
sector size is 128 and 128 * 4 = 512. -/
theorem diskreader_sector_size_spec_witness :
    (DiskReader.new 0 ⟨0, 512, 4, 0⟩).sector_size * 4 = 512 :=
  (diskreader_sector_size_spec 0 ⟨0, 512, 4, 0⟩).2.2 (by decide) (by decide)

/-- C5: `find_io_memory` records the physical start of the first memory-map
entry whose type equals the tag and returns `SUCCESS`; with no matching entry
it returns `NOT_FOUND`; and the boot prelude, when the boot-tag lookup fails,
returns `NOT_FOUND` and never calls the entry logic of the driver. -/
theorem find_io_memory_spec (memtype : Nat) (memmap : List MemoryDescriptor)
    (st : Option Nat) :
    (∀ e, memmap.find? (fun x => x.ty == memtype) = some e →
      find_io_memory memtype memmap st = (Status.SUCCESS, some e.phys_start)) ∧
    (memmap.find? (fun x => x.ty == memtype) = none →
      find_io_memory memtype memmap st = (Status.NOT_FOUND, st)) ∧
    (∀ mr, (∀ e ∈ memmap, e.ty ≠ BOOT_DRIVER_IO_MEMTYPE) →
      boot_prelude memmap st mr = (Status.NOT_FOUND, false)) := by
  have hfind : ∀ (tag : Nat),
      (∀ e, memmap.find? (fun x => x.ty == tag) = some e →
        find_io_memory tag memmap st = (Status.SUCCESS, some e.phys_start)) ∧
      (memmap.find? (fun x => x.ty == tag) = none →
        find_io_memory tag memmap st = (Status.NOT_FOUND, st)) := by
    intro tag
    induction memmap with
    | nil => exact ⟨fun e he => by simp at he, fun _ => rfl⟩
    | cons mement rest ih =>
      constructor
      · intro e he
        by_cases hty : (mement.ty == tag) = true
        · have hfc : List.find? (fun x => x.ty == tag) (mement :: rest) = some mement :=
            List.find?_cons_of_pos rest hty
          rw [hfc] at he
          injection he with he
          subst he
          simp [find_io_memory, hty]
        · rw [Bool.not_eq_true] at hty
          have hfc : List.find? (fun x => x.ty == tag) (mement :: rest) =
              List.find? (fun x => x.ty == tag) rest :=
            List.find?_cons_of_neg rest (by simp [hty])
          rw [hfc] at he
          simp only [find_io_memory, hty]
          simpa using ih.1 e he
      · intro hnone
        by_cases hty : (mement.ty == tag) = true
        · have hfc : List.find? (fun x => x.ty == tag) (mement :: rest) = some mement :=
            List.find?_cons_of_pos rest hty
          rw [hfc] at hnone
          exact absurd hnone (by simp)
        · rw [Bool.not_eq_true] at hty
          have hfc : List.find? (fun x => x.ty == tag) (mement :: rest) =
              List.find? (fun x => x.ty == tag) rest :=
            List.find?_cons_of_neg rest (by simp [hty])
          rw [hfc] at hnone
          simp only [find_io_memory, hty]
          simpa using ih.2 hnone
  refine ⟨(hfind memtype).1, (hfind memtype).2, ?_⟩
  intro mr hnomatch
  have hnone : memmap.find? (fun x => x.ty == BOOT_DRIVER_IO_MEMTYPE) = none := by
    rw [List.find?_eq_none]
    intro e he
    simpa using hnomatch e he
  have hfr := (hfind BOOT_DRIVER_IO_MEMTYPE).2 hnone
  unfold boot_prelude
  rw [hfr]
  have herr : Status.isError Status.NOT_FOUND = true := by decide
  simp [herr]

/-- Witness for C5: on the concrete map [(ty 1, start 100), (ty 7, start 200)]
a scan for tag 7 succeeds recording start 200, and the boot prelude over a map
without the boot tag returns NOT_FOUND without calling main. -/
theorem find_io_memory_spec_witness :
    find_io_memory 7 [⟨1, 100⟩, ⟨7, 200⟩] none = (Status.SUCCESS, some 200) ∧
    boot_prelude [⟨1, 100⟩] none (some 3) = (Status.NOT_FOUND, false) :=
  ⟨(find_io_memory_spec 7 [⟨1, 100⟩, ⟨7, 200⟩] none).1 ⟨7, 200⟩ (by decide),
   (find_io_memory_spec 0 [⟨1, 100⟩] none).2.2 (some 3) (by decide)⟩

/-- C10: on a memory map with no entry of the requested type, `find_io_memory`
returns `NOT_FOUND` and leaves the channel state exactly as it was; and the
state is ever changed only to the physical start of a matching entry. -/
theorem find_io_memory_preserves_state (memtype : Nat)
    (memmap : List MemoryDescriptor) (st : Option Nat) :
    ((∀ e ∈ memmap, e.ty ≠ memtype) →
      find_io_memory memtype memmap st = (Status.NOT_FOUND, st)) ∧
    ((find_io_memory memtype memmap st).2 ≠ st →
      ∃ e ∈ memmap, e.ty = memtype ∧
        (find_io_memory memtype memmap st).2 = some e.phys_start) := by
  induction memmap with
  | nil =>
    exact ⟨fun _ => rfl, fun h => absurd rfl h⟩
  | cons mement rest ih =>
    constructor
    · intro hno
      have hty : (mement.ty == memtype) = false := by
        simpa using hno mement (List.mem_cons_self mement rest)
      simp only [find_io_memory, hty, if_false]
      exact ih.1 fun e he => hno e (List.mem_cons_of_mem mement he)
    · intro hch
      by_cases hty : (mement.ty == memtype) = true
      · refine ⟨mement, List.mem_cons_self mement rest, by simpa using hty, ?_⟩
        simp [find_io_memory, hty]
      · rw [Bool.not_eq_true] at hty
        simp only [find_io_memory, hty] at hch
        rw [if_neg (by simp)] at hch
        obtain ⟨e, he, hee, hval⟩ := ih.2 hch
        refine ⟨e, List.mem_cons_of_mem mement he, hee, ?_⟩
        simp only [find_io_memory, hty]
        rw [if_neg (by simp)]
        exact hval

/-- Witness for C10: a scan for tag 5 over a single entry of type 1 with the
channel state already holding address 42 returns NOT_FOUND and keeps 42; and
on a map holding a tag-5 entry the changed state is the start of that entry. -/
theorem find_io_memory_preserves_state_witness :
    find_io_memory 5 [⟨1, 100⟩] (some 42) = (Status.NOT_FOUND, some 42) ∧
    ∃ e ∈ [(⟨5, 99⟩ : MemoryDescriptor)], e.ty = 5 ∧
      (find_io_memory 5 [⟨5, 99⟩] none).2 = some e.phys_start :=
  ⟨(find_io_memory_preserves_state 5 [⟨1, 100⟩] (some 42)).1 (by decide),
   (find_io_memory_preserves_state 5 [⟨5, 99⟩] none).2 (by decide)⟩

/-- C3: serialize/deserialize round trip through the tagged output region.
The success branch of the fs prelude writes the byte count of the driver output
into the usize field at the address of the fresh region, copies the bytes
immediately after it, sets the channel outptr to that address and returns
SUCCESS; reading the region back through `FSDriver::invoke` then yields a
slice of exactly that length with byte-for-byte equal content. -/
theorem fs_driver_roundtrip (mem : Nat → Nat) (vecptr : Nat)
    (filevec : List Nat) (dio : DriverIOBlock)
    (hlen : filevec.length < 2 ^ 64) :
    readLE USIZE_BYTES (fs_prelude_success mem vecptr filevec dio).1
        ((fs_prelude_success mem vecptr filevec dio).2.1).outptr =
      filevec.length ∧
    (∀ i, (hi : i < filevec.length) →
      (fs_prelude_success mem vecptr filevec dio).1 (vecptr + USIZE_BYTES + i) =
        filevec.get ⟨i, hi⟩) ∧
    ((fs_prelude_success mem vecptr filevec dio).2.1).outptr = vecptr ∧
    (fs_prelude_success mem vecptr filevec dio).2.2 = Status.SUCCESS ∧
    FSDriver.invoke (Except.ok (fs_prelude_success mem vecptr filevec dio).2.2)
        (fs_prelude_success mem vecptr filevec dio).1
        ((fs_prelude_success mem vecptr filevec dio).2.1).outptr =
      Except.ok filevec := by
  have hread : readLE USIZE_BYTES (fs_prelude_store mem vecptr filevec) vecptr =
      filevec.length := by
    have hc : readLE USIZE_BYTES (fs_prelude_store mem vecptr filevec) vecptr =
        readLE USIZE_BYTES (storeLE USIZE_BYTES mem vecptr filevec.length) vecptr :=
      readLE_congr _ _ _ _ fun a ha1 ha2 =>
        storeBytes_below (storeLE USIZE_BYTES mem vecptr filevec.length)
          (vecptr + USIZE_BYTES) filevec a (by omega)
    rw [hc, readLE_storeLE]
    have h64 : (256 : Nat) ^ USIZE_BYTES = 2 ^ 64 := by norm_num [USIZE_BYTES]
    rw [h64]
    exact Nat.mod_eq_of_lt hlen
  have hbyte : ∀ i, (hi : i < filevec.length) →
      fs_prelude_store mem vecptr filevec (vecptr + USIZE_BYTES + i) =
        filevec.get ⟨i, hi⟩ := by
    intro i hi
    exact storeBytes_at (storeLE USIZE_BYTES mem vecptr filevec.length)
      (vecptr + USIZE_BYTES) filevec i hi
  have hlist : read_out_region (fs_prelude_store mem vecptr filevec) vecptr =
      filevec := by
    unfold read_out_region
    rw [hread]
    apply List.ext_getElem
    · simp
    · intro n h1 h2
      simp only [List.getElem_map, List.getElem_range]
      have hn : n < filevec.length := by simpa using h2
      have := hbyte n hn
      simpa [List.get_eq_getElem] using this
  have hstep : FSDriver.invoke (Except.ok Status.SUCCESS)
      (fs_prelude_store mem vecptr filevec) vecptr =
      Except.ok (read_out_region (fs_prelude_store mem vecptr filevec) vecptr) :=
    rfl
  exact ⟨hread, hbyte, rfl, rfl, hstep.trans (congrArg Except.ok hlist)⟩

/-- Witness for C3 at a concrete driver output of 3 known bytes written at
region address 16 into an all-zero memory: the invoker reads back exactly
those bytes. -/
theorem fs_driver_roundtrip_witness :
    FSDriver.invoke (Except.ok Status.SUCCESS)
      (fs_prelude_store (fun _ => 0) 16 [1, 2, 3]) 16 = Except.ok [1, 2, 3] :=
  (fs_driver_roundtrip (fun _ => 0) 16 [1, 2, 3] ⟨5, 0⟩ (by norm_num)).2.2.2.2

/-- C4: `FSDriver::invoke` returns `Ok bytes` on a successful invocation and
execution, with the slice length read from the usize field at outptr and its
bytes starting immediately after that field; `Err (Ok status)` when the
driver ran but reported failure; and `Err (Err status)` when the invocation
itself failed. -/
theorem fsdriver_invoke_three_way (r : Except Status Status) (mem : Nat → Nat)
    (outptr : Nat) :
    (∀ s, r = Except.ok s → s.isSuccess = true →
      ∃ bytes, FSDriver.invoke r mem outptr = Except.ok bytes ∧
        bytes.length = readLE USIZE_BYTES mem outptr ∧
        ∀ i, (hi : i < bytes.length) →
          bytes.get ⟨i, hi⟩ = mem (outptr + USIZE_BYTES + i)) ∧
    (∀ s, r = Except.ok s → s.isSuccess = false →
      FSDriver.invoke r mem outptr = Except.error (Except.ok s)) ∧
    (∀ s, r = Except.error s →
      FSDriver.invoke r mem outptr = Except.error (Except.error s)) := by
  refine ⟨?_, ?_, ?_⟩
  · rintro s rfl hs
    refine ⟨read_out_region mem outptr, ?_, ?_, ?_⟩
    · simp [FSDriver.invoke, isOkAndSuccess, hs]
    · simp [read_out_region]
    · intro i hi
      simp [read_out_region, List.get_eq_getElem]
  · rintro s rfl hs
    simp [FSDriver.invoke, isOkAndSuccess, hs]
  · rintro s rfl
    simp [FSDriver.invoke, isOkAndSuccess]

/-- Witness for C4: a success status 0 yields the output-region slice of an
all-zero memory, and a dispatch failure 3 yields the doubly wrapped error. -/
theorem fsdriver_invoke_three_way_witness :
    (∃ bytes,
      FSDriver.invoke (Except.ok 0) (fun _ => 0) 0 = Except.ok bytes ∧
      bytes.length = readLE USIZE_BYTES (fun _ => 0) 0 ∧
      ∀ i, (hi : i < bytes.length) →
        bytes.get ⟨i, hi⟩ = (fun _ => (0 : Nat)) (0 + USIZE_BYTES + i)) ∧
    FSDriver.invoke (Except.error 3) (fun _ => 0) 0 =
      Except.error (Except.error 3) :=
  ⟨(fsdriver_invoke_three_way (Except.ok 0) (fun _ => 0) 0).1 0 rfl (by decide),
   (fsdriver_invoke_three_way (Except.error 3) (fun _ => 0) 0).2.2 3 rfl⟩

/-- C6: the claim says driver lookup returns an explicit Err status — never a
panic or abort — whenever any driver directory cannot be opened.  But
`get_boot_driver_dir` (src/wakatiwai/mod.rs line 37) calls `.unwrap()` on
`get_driver_dir()`, so when the top-level driver directory fails to open
(here with DEVICE_ERROR) the boot-driver lookup panics, while the
file-system path, which propagates the same failure with `?`, surfaces it as
an error value as the claim requires. -/
theorem get_boot_driver_panics_on_driver_dir_failure :
    get_boot_driver
        ⟨Except.error Status.DEVICE_ERROR, Except.ok (), Except.ok (), [], []⟩
        "a.efi" = Exec.panicked ∧
    get_fs_driver
        ⟨Except.error Status.DEVICE_ERROR, Except.ok (), Except.ok (), [], []⟩
        "a.efi" = Exec.failed Status.DEVICE_ERROR :=
  ⟨rfl, rfl⟩

end Springboard
